import Mathlib

/-!
# Billing-agreement operations of the `paypal` package

A shallow embedding of `billing-agreement.go`: the response types, their JSON
struct tags, and the seven methods of `Client` that build one request each and
hand it to `SendAndAuth`.

`NewRequest`, `Client.SendAndAuth` and the payload types (`BillingAgreement`,
`PatchRequest`, `AgreementStateDescriptor`, `Links`, `BillingPlan`,
`AgreementDetails`) are declared in other files of the package; they are taken
as parameters here (`Sig`, `Env`), so every theorem holds for every
implementation of them.
-/

namespace Paypal

/-! ## `fmt.Sprintf`, restricted to the verbs the file uses -/

/-- What `fmt.Sprintf` appends when operands are left over after the format
is consumed: `%!(EXTRA string=a, string=b)`. -/
def extraOperands : List String → List Char
  | [] => []
  | args => "%!(EXTRA ".data ++ (", ".intercalate (args.map fun a => "string=" ++ a)).data ++ [')']

/-- The formatting loop of `fmt.Sprintf` for string operands: `%s` is replaced
by the next operand verbatim (no quoting, no escaping, no trimming), `%%` by a
percent sign, every other character is copied. A `%s` without an operand
prints `%!s(MISSING)`. -/
def sprintfAux : List Char → List String → List Char
  | [], args => extraOperands args
  | '%' :: 's' :: fmt, a :: args => a.data ++ sprintfAux fmt args
  | '%' :: 's' :: fmt, [] => "%!s(MISSING)".data ++ sprintfAux fmt []
  | '%' :: '%' :: fmt, args => '%' :: sprintfAux fmt args
  | c :: fmt, args => c :: sprintfAux fmt args

/-- The call `fmt.Sprintf(format, args...)` with string operands. -/
def Sprintf (format : String) (args : List String) : String :=
  ⟨sprintfAux format.data args⟩

/-! ## Types declared elsewhere in the package -/

/-- The types this file uses without declaring them. `Request` is
`http.Request`, `Error` is the set of non-nil values of the interface `error`,
`World` is whatever `NewRequest` and `SendAndAuth` read and write besides
their arguments (network, token store), `Time` is `time.Time` and `zeroTime`
its zero value. -/
structure Sig where
  BillingAgreement : Type
  PatchRequest : Type
  AgreementStateDescriptor : Type
  Links : Type
  BillingPlan : Type
  AgreementDetails : Type
  Time : Type
  zeroTime : Time
  Request : Type
  Error : Type
  World : Type

/-- The `payload interface{}` argument of `NewRequest`, as the methods of this
file fill it: the untyped `nil`, a `*BillingAgreement`, a `[]PatchRequest` or
a `*AgreementStateDescriptor`. A pointer is `Option` (`none` is the nil
pointer), a slice is a list. -/
inductive Payload (S : Sig) where
  | untypedNil : Payload S
  | agreement (p : Option S.BillingAgreement) : Payload S
  | patch (patch : List S.PatchRequest) : Payload S
  | descr (descr : Option S.AgreementStateDescriptor) : Payload S

/-! ## The response types (lines 19-43) -/

/-- Go `CreateBillingAgreementResp`: the embedded `*BillingAgreement` and `Links`. -/
structure CreateBillingAgreementResp (S : Sig) where
  BillingAgreement : Option S.BillingAgreement
  Links : List S.Links

/-- Go `ExecuteBillingAgreementResp`. -/
structure ExecuteBillingAgreementResp (S : Sig) where
  ID : String
  Links : List S.Links

/-- Go `GetBillingAgreementResp`. -/
structure GetBillingAgreementResp (S : Sig) where
  ID : String
  State : String
  Description : String
  BillingPlan : Option S.BillingPlan
  Links : List S.Links
  StartDate : S.Time
  AgreementDetails : Option S.AgreementDetails

/-- Go `ListBillingAgreementsResp`. -/
structure ListBillingAgreementsResp (S : Sig) where
  BillingAgreements : List S.BillingAgreement

/-- The composite literal `CreateBillingAgreementResp{}`. -/
def CreateBillingAgreementResp.zero (S : Sig) : CreateBillingAgreementResp S :=
  { BillingAgreement := none, Links := [] }

/-- The composite literal `ExecuteBillingAgreementResp{}`. -/
def ExecuteBillingAgreementResp.zero (S : Sig) : ExecuteBillingAgreementResp S :=
  { ID := "", Links := [] }

/-- The composite literal `GetBillingAgreementResp{}`. -/
def GetBillingAgreementResp.zero (S : Sig) : GetBillingAgreementResp S :=
  { ID := "", State := "", Description := "", BillingPlan := none, Links := [],
    StartDate := S.zeroTime, AgreementDetails := none }

/-! ## Struct tags, as `reflect` and `encoding/json` see them -/

/-- One field of a struct type: its Go name, the value of its `json` struct
tag (`none` when the field has no tag) and whether it is an embedded field. -/
structure StructField where
  Name : String
  JSONTag : Option String
  Anonymous : Bool
deriving DecidableEq, Repr

/-- Fields of `CreateBillingAgreementResp` (lines 20-23). -/
def CreateBillingAgreementResp.fields : List StructField :=
  [ { Name := "BillingAgreement", JSONTag := none, Anonymous := true },
    { Name := "Links", JSONTag := some "links", Anonymous := false } ]

/-- Fields of `ExecuteBillingAgreementResp` (lines 25-28). -/
def ExecuteBillingAgreementResp.fields : List StructField :=
  [ { Name := "ID", JSONTag := none, Anonymous := false },
    { Name := "Links", JSONTag := some "links", Anonymous := false } ]

/-- Fields of `GetBillingAgreementResp` (lines 30-38). -/
def GetBillingAgreementResp.fields : List StructField :=
  [ { Name := "ID", JSONTag := some "id", Anonymous := false },
    { Name := "State", JSONTag := some "state", Anonymous := false },
    { Name := "Description", JSONTag := some "description", Anonymous := false },
    { Name := "BillingPlan", JSONTag := some "plan", Anonymous := false },
    { Name := "Links", JSONTag := some "links", Anonymous := false },
    { Name := "StartDate", JSONTag := some "start_date", Anonymous := false },
    { Name := "AgreementDetails", JSONTag := some "agreement_details", Anonymous := false } ]

/-- Fields of `ListBillingAgreementsResp` (lines 40-42). -/
def ListBillingAgreementsResp.fields : List StructField :=
  [ { Name := "BillingAgreements", JSONTag := some "plans", Anonymous := false } ]

/-- The name part of a `json` tag: the text before the first comma
(`parseTag` of `encoding/json`). -/
def tagName (tag : String) : String :=
  ⟨tag.data.takeWhile fun c => c != ','⟩

/-- The function `isValidTag` of `encoding/json`, for ASCII names: non-empty,
and made of letters, digits and the listed punctuation. -/
def isValidTag (name : String) : Bool :=
  name != "" && name.data.all fun c =>
    "!#$%&()*+-./:;<=>?@[]^_\x7b|\x7d~ ".data.contains c || c.isAlphanum

/-- The JSON object key `encoding/json` gives a struct field (`typeFields`):
a field tagged `-` has none; otherwise the name part of the tag when it is
valid; otherwise an embedded struct has no key of its own (its fields are
promoted) and any other field goes by its Go name. -/
def jsonKey (f : StructField) : Option String :=
  let tag := f.JSONTag.getD ""
  if tag = "-" then none
  else
    let name := if isValidTag (tagName tag) then tagName tag else ""
    if name != "" then some name
    else if f.Anonymous then none
    else some f.Name

/-- Whether `json.Unmarshal` stores the value of object key `key` in the
field: the key equals the field's JSON key, or equals it up to (ASCII) case. -/
def acceptsKey (f : StructField) (key : String) : Bool :=
  match jsonKey f with
  | some k => k == key || k.data.map Char.toLower == key.data.map Char.toLower
  | none => false

/-- The key bound to the field called `name` in a field list. -/
def keyOf (fields : List StructField) (name : String) : Option String :=
  (fields.find? fun f => f.Name == name).bind jsonKey

/-! ## The collaborators: `Client`, `NewRequest`, `SendAndAuth` -/

/-- The part of `Client` this file reads: the field `APIBase`. The receiver
of every method is a non-nil `*Client`. -/
structure Client where
  APIBase : String
deriving DecidableEq, Repr

/-- The dynamic type of the `v interface{}` argument of `SendAndAuth`: the
untyped `nil`, or a pointer to one of the three response types. -/
inductive Kind where
  | untypedNil
  | create
  | execute
  | get
deriving DecidableEq, Repr

/-- What a `v` of the given kind points to. `SendAndAuth` may write to it and
cannot change its type. -/
def Cell (S : Sig) : Kind → Type
  | .untypedNil => Unit
  | .create => CreateBillingAgreementResp S
  | .execute => ExecuteBillingAgreementResp S
  | .get => GetBillingAgreementResp S

/-- The two functions the methods call. `NewRequest(method, url, payload)`
returns `(*http.Request, error)`; `c.SendAndAuth(req, v)` returns `error` and
leaves in `v` whatever it decoded. Both may read and change the world. -/
structure Env (S : Sig) where
  NewRequest : String → String → Payload S → S.World →
    (Option S.Request × Option S.Error) × S.World
  SendAndAuth : Client → Option S.Request → (k : Kind) → Cell S k → S.World →
    (Option S.Error × Cell S k) × S.World

/-- One call made to a collaborator: the arguments passed and what came
back. For `SendAndAuth`, `v` is the container as passed and `out` the
container as the call left it. -/
inductive Call (S : Sig) where
  | newRequest (method url : String) (payload : Payload S)
      (req : Option S.Request) (err : Option S.Error) : Call S
  | sendAndAuth (req : Option S.Request) (k : Kind) (v : Cell S k)
      (err : Option S.Error) (out : Cell S k) : Call S

/-- The world together with the log of collaborator calls made so far. -/
structure St (S : Sig) where
  world : S.World
  calls : List (Call S)

/-- State at the start of a method call: the given world, nothing logged. -/
def St.init {S : Sig} (w : S.World) : St S :=
  { world := w, calls := [] }

/-- The call `NewRequest(method, url, payload)`, logged. -/
def callNewRequest {S : Sig} (E : Env S) (method url : String) (payload : Payload S)
    (st : St S) : (Option S.Request × Option S.Error) × St S :=
  let r := E.NewRequest method url payload st.world
  (r.1, { world := r.2,
          calls := st.calls ++ [Call.newRequest method url payload r.1.1 r.1.2] })

/-- The call `c.SendAndAuth(req, v)`, logged. -/
def callSendAndAuth {S : Sig} (E : Env S) (c : Client) (req : Option S.Request) (k : Kind)
    (v : Cell S k) (st : St S) : (Option S.Error × Cell S k) × St S :=
  let r := E.SendAndAuth c req k v st.world
  (r.1, { world := r.2, calls := st.calls ++ [Call.sendAndAuth req k v r.1.1 r.1.2] })

/-! ### Reading the log -/

/-- Verb and URL of a `NewRequest` call. -/
def Call.requestLine {S : Sig} : Call S → Option (String × String)
  | .newRequest method url _ _ _ => some (method, url)
  | .sendAndAuth _ _ _ _ _ => none

/-- Payload of a `NewRequest` call. -/
def Call.body {S : Sig} : Call S → Option (Payload S)
  | .newRequest _ _ payload _ _ => some payload
  | .sendAndAuth _ _ _ _ _ => none

/-- The error a call returned (`none` is the nil error). -/
def Call.err {S : Sig} : Call S → Option S.Error
  | .newRequest _ _ _ _ err => err
  | .sendAndAuth _ _ _ err _ => err

/-- Whether the call is a `NewRequest` call. -/
def Call.isNewRequest {S : Sig} : Call S → Bool
  | .newRequest _ _ _ _ _ => true
  | .sendAndAuth _ _ _ _ _ => false

/-- Whether the call is a `SendAndAuth` call. -/
def Call.isSendAndAuth {S : Sig} : Call S → Bool
  | .newRequest _ _ _ _ _ => false
  | .sendAndAuth _ _ _ _ _ => true

/-- Kind of the container of a `SendAndAuth` call. -/
def Call.kind {S : Sig} : Call S → Option Kind
  | .newRequest _ _ _ _ _ => none
  | .sendAndAuth _ k _ _ _ => some k

/-- The result container of a `SendAndAuth` call, as it was passed. -/
def Call.container {S : Sig} : Call S → Option ((k : Kind) × Cell S k)
  | .newRequest _ _ _ _ _ => none
  | .sendAndAuth _ k v _ _ => some ⟨k, v⟩

/-- Some `SendAndAuth` call of the log returned a non-nil error. -/
def sendFailed {S : Sig} (calls : List (Call S)) : Bool :=
  calls.any fun call => call.isSendAndAuth && call.err.isSome

/-- Some `SendAndAuth` call of the log returned the nil error. -/
def sendSucceeded {S : Sig} (calls : List (Call S)) : Bool :=
  calls.any fun call => call.isSendAndAuth && call.err.isNone

/-- Some `NewRequest` call of the log returned the nil error. -/
def requestBuilt {S : Sig} (calls : List (Call S)) : Bool :=
  calls.any fun call => call.isNewRequest && call.err.isNone

/-- Every call of the log returned the nil error. -/
def allSucceeded {S : Sig} (calls : List (Call S)) : Bool :=
  calls.all fun call => call.err.isNone

/-- One request per call: `NewRequest` is called once, and `SendAndAuth` once
if `NewRequest` returned the nil error and not at all otherwise. -/
def OneRequest {S : Sig} (calls : List (Call S)) : Prop :=
  calls.countP Call.isNewRequest = 1 ∧
  calls.countP Call.isSendAndAuth = (if requestBuilt calls then 1 else 0)

/-! ## The methods (lines 45-153) -/

/-- Go `(*Client).CreateBillingAgreement` (lines 46-60). -/
def CreateBillingAgreement {S : Sig} (E : Env S) (c : Client) (p : Option S.BillingAgreement)
    (st : St S) : (Option (CreateBillingAgreementResp S) × Option S.Error) × St S :=
  let r := callNewRequest E "POST" (Sprintf "%s/payments/billing-agreements" [c.APIBase])
    (Payload.agreement p) st
  match r.1.2 with
  | some err => ((none, some err), r.2)
  | none =>
    let v := CreateBillingAgreementResp.zero S
    let r2 := callSendAndAuth E c r.1.1 Kind.create v r.2
    match r2.1.1 with
    | some err => ((none, some err), r2.2)
    | none => ((some r2.1.2, none), r2.2)

/-- Go `(*Client).ExecuteBillingAgreement` (lines 63-77). -/
def ExecuteBillingAgreement {S : Sig} (E : Env S) (c : Client) (token : String)
    (st : St S) : (Option (ExecuteBillingAgreementResp S) × Option S.Error) × St S :=
  let r := callNewRequest E "POST"
    (Sprintf "%s/payments/billing-agreements/%s/agreement-execute" [c.APIBase, token])
    Payload.untypedNil st
  match r.1.2 with
  | some err => ((none, some err), r.2)
  | none =>
    let v := ExecuteBillingAgreementResp.zero S
    let r2 := callSendAndAuth E c r.1.1 Kind.execute v r.2
    match r2.1.1 with
    | some err => ((none, some err), r2.2)
    | none => ((some r2.1.2, none), r2.2)

/-- Go `(*Client).GetBillingAgreement` (lines 80-94). -/
def GetBillingAgreement {S : Sig} (E : Env S) (c : Client) (id : String)
    (st : St S) : (Option (GetBillingAgreementResp S) × Option S.Error) × St S :=
  let r := callNewRequest E "GET"
    (Sprintf "%s/payments/billing-agreements/%s" [c.APIBase, id]) Payload.untypedNil st
  match r.1.2 with
  | some err => ((none, some err), r.2)
  | none =>
    let v := GetBillingAgreementResp.zero S
    let r2 := callSendAndAuth E c r.1.1 Kind.get v r.2
    match r2.1.1 with
    | some err => ((none, some err), r2.2)
    | none => ((some r2.1.2, none), r2.2)

/-- Go `(*Client).UpdateBillingAgreement` (lines 97-108). -/
def UpdateBillingAgreement {S : Sig} (E : Env S) (c : Client) (id : String)
    (patch : List S.PatchRequest) (st : St S) : Option S.Error × St S :=
  let r := callNewRequest E "PATCH"
    (Sprintf "%s/payments/billing-agreements/%s" [c.APIBase, id]) (Payload.patch patch) st
  match r.1.2 with
  | some err => (some err, r.2)
  | none =>
    let r2 := callSendAndAuth E c r.1.1 Kind.untypedNil () r.2
    match r2.1.1 with
    | some err => (some err, r2.2)
    | none => (none, r2.2)

/-- Go `(*Client).SuspendBillingAgreement` (lines 111-123). -/
def SuspendBillingAgreement {S : Sig} (E : Env S) (c : Client) (id : String)
    (descr : Option S.AgreementStateDescriptor) (st : St S) : Option S.Error × St S :=
  let r := callNewRequest E "POST"
    (Sprintf "%s/payments/billing-agreements/%s/suspend" [c.APIBase, id]) (Payload.descr descr) st
  match r.1.2 with
  | some err => (some err, r.2)
  | none =>
    let r2 := callSendAndAuth E c r.1.1 Kind.untypedNil () r.2
    match r2.1.1 with
    | some err => (some err, r2.2)
    | none => (none, r2.2)

/-- Go `(*Client).CancelBillingAgreement` (lines 126-138). -/
def CancelBillingAgreement {S : Sig} (E : Env S) (c : Client) (id : String)
    (descr : Option S.AgreementStateDescriptor) (st : St S) : Option S.Error × St S :=
  let r := callNewRequest E "POST"
    (Sprintf "%s/payments/billing-agreements/%s/cancel" [c.APIBase, id]) (Payload.descr descr) st
  match r.1.2 with
  | some err => (some err, r.2)
  | none =>
    let r2 := callSendAndAuth E c r.1.1 Kind.untypedNil () r.2
    match r2.1.1 with
    | some err => (some err, r2.2)
    | none => (none, r2.2)

/-- Go `(*Client).ReactivateBillingAgreement` (lines 141-153). -/
def ReactivateBillingAgreement {S : Sig} (E : Env S) (c : Client) (id : String)
    (descr : Option S.AgreementStateDescriptor) (st : St S) : Option S.Error × St S :=
  let r := callNewRequest E "POST"
    (Sprintf "%s/payments/billing-agreements/%s/re-activate" [c.APIBase, id])
    (Payload.descr descr) st
  match r.1.2 with
  | some err => (some err, r.2)
  | none =>
    let r2 := callSendAndAuth E c r.1.1 Kind.untypedNil () r.2
    match r2.1.1 with
    | some err => (some err, r2.2)
    | none => (none, r2.2)

/-! ## The methods, seen uniformly -/

/-- Names of the seven methods of the file. -/
inductive Op where
  | create
  | execute
  | get
  | update
  | suspend
  | cancel
  | reactivate
deriving DecidableEq, Repr

/-- A call of one of the seven methods, with its arguments. -/
inductive Invocation (S : Sig) where
  | create (p : Option S.BillingAgreement) : Invocation S
  | execute (token : String) : Invocation S
  | get (id : String) : Invocation S
  | update (id : String) (patch : List S.PatchRequest) : Invocation S
  | suspend (id : String) (descr : Option S.AgreementStateDescriptor) : Invocation S
  | cancel (id : String) (descr : Option S.AgreementStateDescriptor) : Invocation S
  | reactivate (id : String) (descr : Option S.AgreementStateDescriptor) : Invocation S

/-- The method an invocation calls. -/
def Invocation.op {S : Sig} : Invocation S → Op
  | .create _ => Op.create
  | .execute _ => Op.execute
  | .get _ => Op.get
  | .update _ _ => Op.update
  | .suspend _ _ => Op.suspend
  | .cancel _ _ => Op.cancel
  | .reactivate _ _ => Op.reactivate

/-- The identifier argument of an invocation (Create has none). -/
def Invocation.ident {S : Sig} : Invocation S → Option String
  | .create _ => none
  | .execute token => some token
  | .get id => some id
  | .update id _ => some id
  | .suspend id _ => some id
  | .cancel id _ => some id
  | .reactivate id _ => some id

/-- The collaborator calls an invocation makes, started in world `w`. -/
def Invocation.log {S : Sig} (E : Env S) (c : Client) (w : S.World) : Invocation S → List (Call S)
  | .create p => (CreateBillingAgreement E c p (St.init w)).2.calls
  | .execute token => (ExecuteBillingAgreement E c token (St.init w)).2.calls
  | .get id => (GetBillingAgreement E c id (St.init w)).2.calls
  | .update id patch => (UpdateBillingAgreement E c id patch (St.init w)).2.calls
  | .suspend id descr => (SuspendBillingAgreement E c id descr (St.init w)).2.calls
  | .cancel id descr => (CancelBillingAgreement E c id descr (St.init w)).2.calls
  | .reactivate id descr => (ReactivateBillingAgreement E c id descr (St.init w)).2.calls

/-- The (verb, URL) pairs an invocation hands to `NewRequest`. -/
def Invocation.issued {S : Sig} (E : Env S) (c : Client) (w : S.World) (i : Invocation S) :
    List (String × String) :=
  (i.log E c w).filterMap Call.requestLine

/-! ## A concrete instance, for evaluating the methods -/

/-- A signature with strings for the payload types; a request is its verb and
URL, the world is the HTTP status the transport will answer with. -/
@[reducible] def demoSig : Sig :=
  { BillingAgreement := String, PatchRequest := String, AgreementStateDescriptor := String,
    Links := String, BillingPlan := String, AgreementDetails := String,
    Time := Nat, zeroTime := 0,
    Request := String × String, Error := String, World := Nat }

/-- What the demo transport writes into the result container. -/
def demoDecode : (k : Kind) → Cell demoSig k → Cell demoSig k
  | .untypedNil, v => v
  | .create, (v : CreateBillingAgreementResp demoSig) =>
    ({ BillingAgreement := v.BillingAgreement, Links := ["self"] } :
      CreateBillingAgreementResp demoSig)
  | .execute, (v : ExecuteBillingAgreementResp demoSig) =>
    ({ ID := "I-123", Links := v.Links } : ExecuteBillingAgreementResp demoSig)
  | .get, (v : GetBillingAgreementResp demoSig) =>
    ({ ID := "I-123", State := "Active", Description := v.Description,
       BillingPlan := v.BillingPlan, Links := v.Links, StartDate := v.StartDate,
       AgreementDetails := v.AgreementDetails } : GetBillingAgreementResp demoSig)

/-- Demo collaborators: `NewRequest` fails on an empty verb only; `SendAndAuth`
writes into the container and reports an error unless the status is 200. -/
def demoEnv : Env demoSig :=
  { NewRequest := fun (method url : String) _ (w : Nat) =>
      if method = "" then ((none, some "no method"), w) else ((some (method, url), none), w)
    SendAndAuth := fun _ _ k v (w : Nat) =>
      if w = 200 then ((none, demoDecode k v), w)
      else ((some "status not 2xx", demoDecode k v), w) }

/-- Demo client. -/
def demoClient : Client :=
  { APIBase := "https://api.paypal.com/v1" }

/-! ## Theorems -/

section Urls

theorem Sprintf_create (b : String) :
    Sprintf "%s/payments/billing-agreements" [b] = b ++ "/payments/billing-agreements" := by
  apply String.ext
  simp [Sprintf, sprintfAux, extraOperands]

theorem Sprintf_execute (b s : String) :
    Sprintf "%s/payments/billing-agreements/%s/agreement-execute" [b, s]
      = b ++ "/payments/billing-agreements/" ++ s ++ "/agreement-execute" := by
  apply String.ext
  simp [Sprintf, sprintfAux, extraOperands]

theorem Sprintf_agreement (b s : String) :
    Sprintf "%s/payments/billing-agreements/%s" [b, s]
      = b ++ "/payments/billing-agreements/" ++ s := by
  apply String.ext
  simp [Sprintf, sprintfAux, extraOperands]

theorem Sprintf_suspend (b s : String) :
    Sprintf "%s/payments/billing-agreements/%s/suspend" [b, s]
      = b ++ "/payments/billing-agreements/" ++ s ++ "/suspend" := by
  apply String.ext
  simp [Sprintf, sprintfAux, extraOperands]

theorem Sprintf_cancel (b s : String) :
    Sprintf "%s/payments/billing-agreements/%s/cancel" [b, s]
      = b ++ "/payments/billing-agreements/" ++ s ++ "/cancel" := by
  apply String.ext
  simp [Sprintf, sprintfAux, extraOperands]

theorem Sprintf_reactivate (b s : String) :
    Sprintf "%s/payments/billing-agreements/%s/re-activate" [b, s]
      = b ++ "/payments/billing-agreements/" ++ s ++ "/re-activate" := by
  apply String.ext
  simp [Sprintf, sprintfAux, extraOperands]

end Urls

/-! ### Requests built (C1, C2) -/

section Lines

variable {S : Sig} (E : Env S) (c : Client) (w : S.World)

theorem CreateBillingAgreement_lines (p : Option S.BillingAgreement) :
    (CreateBillingAgreement E c p (St.init w)).2.calls.filterMap Call.requestLine
      = [("POST", c.APIBase ++ "/payments/billing-agreements")] := by
  simp only [CreateBillingAgreement, callNewRequest, callSendAndAuth, St.init, Sprintf_create]
  split <;> [skip; split] <;> simp [Call.requestLine]

theorem ExecuteBillingAgreement_lines (token : String) :
    (ExecuteBillingAgreement E c token (St.init w)).2.calls.filterMap Call.requestLine
      = [("POST", c.APIBase ++ "/payments/billing-agreements/" ++ token
            ++ "/agreement-execute")] := by
  simp only [ExecuteBillingAgreement, callNewRequest, callSendAndAuth, St.init, Sprintf_execute]
  split <;> [skip; split] <;> simp [Call.requestLine]

theorem GetBillingAgreement_lines (id : String) :
    (GetBillingAgreement E c id (St.init w)).2.calls.filterMap Call.requestLine
      = [("GET", c.APIBase ++ "/payments/billing-agreements/" ++ id)] := by
  simp only [GetBillingAgreement, callNewRequest, callSendAndAuth, St.init, Sprintf_agreement]
  split <;> [skip; split] <;> simp [Call.requestLine]

theorem UpdateBillingAgreement_lines (id : String) (patch : List S.PatchRequest) :
    (UpdateBillingAgreement E c id patch (St.init w)).2.calls.filterMap Call.requestLine
      = [("PATCH", c.APIBase ++ "/payments/billing-agreements/" ++ id)] := by
  simp only [UpdateBillingAgreement, callNewRequest, callSendAndAuth, St.init, Sprintf_agreement]
  split <;> [skip; split] <;> simp [Call.requestLine]

theorem SuspendBillingAgreement_lines (id : String) (descr : Option S.AgreementStateDescriptor) :
    (SuspendBillingAgreement E c id descr (St.init w)).2.calls.filterMap Call.requestLine
      = [("POST", c.APIBase ++ "/payments/billing-agreements/" ++ id ++ "/suspend")] := by
  simp only [SuspendBillingAgreement, callNewRequest, callSendAndAuth, St.init, Sprintf_suspend]
  split <;> [skip; split] <;> simp [Call.requestLine]

theorem CancelBillingAgreement_lines (id : String) (descr : Option S.AgreementStateDescriptor) :
    (CancelBillingAgreement E c id descr (St.init w)).2.calls.filterMap Call.requestLine
      = [("POST", c.APIBase ++ "/payments/billing-agreements/" ++ id ++ "/cancel")] := by
  simp only [CancelBillingAgreement, callNewRequest, callSendAndAuth, St.init, Sprintf_cancel]
  split <;> [skip; split] <;> simp [Call.requestLine]

theorem ReactivateBillingAgreement_lines (id : String)
    (descr : Option S.AgreementStateDescriptor) :
    (ReactivateBillingAgreement E c id descr (St.init w)).2.calls.filterMap Call.requestLine
      = [("POST", c.APIBase ++ "/payments/billing-agreements/" ++ id ++ "/re-activate")] := by
  simp only [ReactivateBillingAgreement, callNewRequest, callSendAndAuth, St.init,
    Sprintf_reactivate]
  split <;> [skip; split] <;> simp [Call.requestLine]

end Lines

/-- C1: for every API base `b` and every identifier `s` (the empty string
included), the only `NewRequest` call of each method carries the verb and URL
of the table: Create `POST b/payments/billing-agreements`, Execute
`POST .../s/agreement-execute`, Get `GET .../s`, Update `PATCH .../s`, Suspend
`POST .../s/suspend`, Cancel `POST .../s/cancel`, Reactivate
`POST .../s/re-activate`. -/
theorem request_line_of_each_operation (S : Sig) (E : Env S) (b s : String) (w : S.World)
    (p : Option S.BillingAgreement) (patch : List S.PatchRequest)
    (descr : Option S.AgreementStateDescriptor) :
    (CreateBillingAgreement E { APIBase := b } p (St.init w)).2.calls.filterMap Call.requestLine
        = [("POST", b ++ "/payments/billing-agreements")]
    ∧ (ExecuteBillingAgreement E { APIBase := b } s (St.init w)).2.calls.filterMap Call.requestLine
        = [("POST", b ++ "/payments/billing-agreements/" ++ s ++ "/agreement-execute")]
    ∧ (GetBillingAgreement E { APIBase := b } s (St.init w)).2.calls.filterMap Call.requestLine
        = [("GET", b ++ "/payments/billing-agreements/" ++ s)]
    ∧ (UpdateBillingAgreement E { APIBase := b } s patch (St.init w)).2.calls.filterMap
          Call.requestLine
        = [("PATCH", b ++ "/payments/billing-agreements/" ++ s)]
    ∧ (SuspendBillingAgreement E { APIBase := b } s descr (St.init w)).2.calls.filterMap
          Call.requestLine
        = [("POST", b ++ "/payments/billing-agreements/" ++ s ++ "/suspend")]
    ∧ (CancelBillingAgreement E { APIBase := b } s descr (St.init w)).2.calls.filterMap
          Call.requestLine
        = [("POST", b ++ "/payments/billing-agreements/" ++ s ++ "/cancel")]
    ∧ (ReactivateBillingAgreement E { APIBase := b } s descr (St.init w)).2.calls.filterMap
          Call.requestLine
        = [("POST", b ++ "/payments/billing-agreements/" ++ s ++ "/re-activate")] :=
  ⟨CreateBillingAgreement_lines E _ w p, ExecuteBillingAgreement_lines E _ w s,
    GetBillingAgreement_lines E _ w s, UpdateBillingAgreement_lines E _ w s patch,
    SuspendBillingAgreement_lines E _ w s descr, CancelBillingAgreement_lines E _ w s descr,
    ReactivateBillingAgreement_lines E _ w s descr⟩

/-- C2: the payload of the only `NewRequest` call of each method is the one of
the table: the given agreement for Create, the given patch sequence for
Update, the given state descriptor for Suspend, Cancel and Reactivate, and the
untyped nil for Execute and Get. -/
theorem payload_of_each_operation (S : Sig) (E : Env S) (c : Client) (s : String)
    (w : S.World) (p : Option S.BillingAgreement) (patch : List S.PatchRequest)
    (descr : Option S.AgreementStateDescriptor) :
    (CreateBillingAgreement E c p (St.init w)).2.calls.filterMap Call.body
        = [Payload.agreement p]
    ∧ (ExecuteBillingAgreement E c s (St.init w)).2.calls.filterMap Call.body
        = [Payload.untypedNil]
    ∧ (GetBillingAgreement E c s (St.init w)).2.calls.filterMap Call.body
        = [Payload.untypedNil]
    ∧ (UpdateBillingAgreement E c s patch (St.init w)).2.calls.filterMap Call.body
        = [Payload.patch patch]
    ∧ (SuspendBillingAgreement E c s descr (St.init w)).2.calls.filterMap Call.body
        = [Payload.descr descr]
    ∧ (CancelBillingAgreement E c s descr (St.init w)).2.calls.filterMap Call.body
        = [Payload.descr descr]
    ∧ (ReactivateBillingAgreement E c s descr (St.init w)).2.calls.filterMap Call.body
        = [Payload.descr descr] := by
  simp only [CreateBillingAgreement, ExecuteBillingAgreement, GetBillingAgreement,
    UpdateBillingAgreement, SuspendBillingAgreement, CancelBillingAgreement,
    ReactivateBillingAgreement, callNewRequest, callSendAndAuth, St.init]
  refine ⟨?_, ?_, ?_, ?_, ?_, ?_, ?_⟩
  all_goals (split <;> [skip; split] <;> simp [Call.body])

/-! ### Errors and results (C3, C4, C5, C6) -/

/-- C3: in every method, if `SendAndAuth` returned an error then the method
returns a non-nil error, and Create, Execute and Get return the nil result
pointer, not the container `SendAndAuth` wrote to. -/
theorem send_error_gives_error_and_nil_result (S : Sig) (E : Env S) (c : Client) (s : String)
    (w : S.World) (p : Option S.BillingAgreement) (patch : List S.PatchRequest)
    (descr : Option S.AgreementStateDescriptor) :
    (sendFailed (CreateBillingAgreement E c p (St.init w)).2.calls = true →
        (CreateBillingAgreement E c p (St.init w)).1.1 = none
        ∧ (CreateBillingAgreement E c p (St.init w)).1.2 ≠ none)
    ∧ (sendFailed (ExecuteBillingAgreement E c s (St.init w)).2.calls = true →
        (ExecuteBillingAgreement E c s (St.init w)).1.1 = none
        ∧ (ExecuteBillingAgreement E c s (St.init w)).1.2 ≠ none)
    ∧ (sendFailed (GetBillingAgreement E c s (St.init w)).2.calls = true →
        (GetBillingAgreement E c s (St.init w)).1.1 = none
        ∧ (GetBillingAgreement E c s (St.init w)).1.2 ≠ none)
    ∧ (sendFailed (UpdateBillingAgreement E c s patch (St.init w)).2.calls = true →
        (UpdateBillingAgreement E c s patch (St.init w)).1 ≠ none)
    ∧ (sendFailed (SuspendBillingAgreement E c s descr (St.init w)).2.calls = true →
        (SuspendBillingAgreement E c s descr (St.init w)).1 ≠ none)
    ∧ (sendFailed (CancelBillingAgreement E c s descr (St.init w)).2.calls = true →
        (CancelBillingAgreement E c s descr (St.init w)).1 ≠ none)
    ∧ (sendFailed (ReactivateBillingAgreement E c s descr (St.init w)).2.calls = true →
        (ReactivateBillingAgreement E c s descr (St.init w)).1 ≠ none) := by
  simp only [CreateBillingAgreement, ExecuteBillingAgreement, GetBillingAgreement,
    UpdateBillingAgreement, SuspendBillingAgreement, CancelBillingAgreement,
    ReactivateBillingAgreement, callNewRequest, callSendAndAuth, St.init, sendFailed]
  refine ⟨?_, ?_, ?_, ?_, ?_, ?_, ?_⟩
  all_goals (split <;> [skip; split] <;>
    simp_all [Call.isSendAndAuth, Call.err])

theorem send_error_gives_error_and_nil_result_witness :
    (sendFailed (CreateBillingAgreement demoEnv demoClient (some "agreement") (St.init 500)).2.calls = true
        ∧ (CreateBillingAgreement demoEnv demoClient (some "agreement") (St.init 500)).1.1 = none
        ∧ (CreateBillingAgreement demoEnv demoClient (some "agreement") (St.init 500)).1.2 ≠ none)
    ∧ (sendFailed (ExecuteBillingAgreement demoEnv demoClient "EC-7" (St.init 500)).2.calls = true
        ∧ (ExecuteBillingAgreement demoEnv demoClient "EC-7" (St.init 500)).1.1 = none
        ∧ (ExecuteBillingAgreement demoEnv demoClient "EC-7" (St.init 500)).1.2 ≠ none)
    ∧ (sendFailed (GetBillingAgreement demoEnv demoClient "I-123" (St.init 500)).2.calls = true
        ∧ (GetBillingAgreement demoEnv demoClient "I-123" (St.init 500)).1.1 = none
        ∧ (GetBillingAgreement demoEnv demoClient "I-123" (St.init 500)).1.2 ≠ none)
    ∧ (sendFailed (UpdateBillingAgreement demoEnv demoClient "I-123" ["op"] (St.init 500)).2.calls = true
        ∧ (UpdateBillingAgreement demoEnv demoClient "I-123" ["op"] (St.init 500)).1 ≠ none)
    ∧ (sendFailed (SuspendBillingAgreement demoEnv demoClient "I-123" (some "note") (St.init 500)).2.calls = true
        ∧ (SuspendBillingAgreement demoEnv demoClient "I-123" (some "note") (St.init 500)).1 ≠ none)
    ∧ (sendFailed (CancelBillingAgreement demoEnv demoClient "I-123" (some "note") (St.init 500)).2.calls = true
        ∧ (CancelBillingAgreement demoEnv demoClient "I-123" (some "note") (St.init 500)).1 ≠ none)
    ∧ (sendFailed (ReactivateBillingAgreement demoEnv demoClient "I-123" (some "note") (St.init 500)).2.calls = true
        ∧ (ReactivateBillingAgreement demoEnv demoClient "I-123" (some "note") (St.init 500)).1 ≠ none) := by
  have h := send_error_gives_error_and_nil_result demoSig demoEnv demoClient "I-123" 500
    (some "agreement") ["op"] (some "note")
  have hx := send_error_gives_error_and_nil_result demoSig demoEnv demoClient "EC-7" 500
    (some "agreement") ["op"] (some "note")
  exact ⟨⟨rfl, h.1 rfl⟩, ⟨rfl, hx.2.1 rfl⟩, ⟨rfl, h.2.2.1 rfl⟩, ⟨rfl, h.2.2.2.1 rfl⟩,
    ⟨rfl, h.2.2.2.2.1 rfl⟩, ⟨rfl, h.2.2.2.2.2.1 rfl⟩, ⟨rfl, h.2.2.2.2.2.2 rfl⟩⟩

/-- C4: every method returns the error `e` if and only if one of its calls to
`NewRequest` or `SendAndAuth` returned that same `e`; in particular it returns
the nil error exactly when no call returned an error. -/
theorem error_is_the_collaborator_error (S : Sig) (E : Env S) (c : Client) (s : String)
    (w : S.World) (p : Option S.BillingAgreement) (patch : List S.PatchRequest)
    (descr : Option S.AgreementStateDescriptor) (e : S.Error) :
    ((CreateBillingAgreement E c p (St.init w)).1.2 = some e ↔
        ∃ call ∈ (CreateBillingAgreement E c p (St.init w)).2.calls, call.err = some e)
    ∧ ((ExecuteBillingAgreement E c s (St.init w)).1.2 = some e ↔
        ∃ call ∈ (ExecuteBillingAgreement E c s (St.init w)).2.calls, call.err = some e)
    ∧ ((GetBillingAgreement E c s (St.init w)).1.2 = some e ↔
        ∃ call ∈ (GetBillingAgreement E c s (St.init w)).2.calls, call.err = some e)
    ∧ ((UpdateBillingAgreement E c s patch (St.init w)).1 = some e ↔
        ∃ call ∈ (UpdateBillingAgreement E c s patch (St.init w)).2.calls, call.err = some e)
    ∧ ((SuspendBillingAgreement E c s descr (St.init w)).1 = some e ↔
        ∃ call ∈ (SuspendBillingAgreement E c s descr (St.init w)).2.calls, call.err = some e)
    ∧ ((CancelBillingAgreement E c s descr (St.init w)).1 = some e ↔
        ∃ call ∈ (CancelBillingAgreement E c s descr (St.init w)).2.calls, call.err = some e)
    ∧ ((ReactivateBillingAgreement E c s descr (St.init w)).1 = some e ↔
        ∃ call ∈ (ReactivateBillingAgreement E c s descr (St.init w)).2.calls,
          call.err = some e) := by
  simp only [CreateBillingAgreement, ExecuteBillingAgreement, GetBillingAgreement,
    UpdateBillingAgreement, SuspendBillingAgreement, CancelBillingAgreement,
    ReactivateBillingAgreement, callNewRequest, callSendAndAuth, St.init]
  refine ⟨?_, ?_, ?_, ?_, ?_, ?_, ?_⟩
  all_goals (split <;> [skip; split] <;> simp_all [Call.err])

theorem error_is_the_collaborator_error_witness :
    (GetBillingAgreement demoEnv demoClient "I-123" (St.init 500)).1.2 = some "status not 2xx"
    ∧ ∃ call ∈ (GetBillingAgreement demoEnv demoClient "I-123" (St.init 500)).2.calls,
        call.err = some "status not 2xx" :=
  ⟨rfl, (error_is_the_collaborator_error demoSig demoEnv demoClient "I-123" 500
    (some "agreement") ["op"] (some "note") "status not 2xx").2.2.1.mp rfl⟩

/-- C5: every `SendAndAuth` call of Create, Execute and Get is handed the
zero value of the method's result type; and when every call returned the nil
error, the method returns the nil error together with the container exactly
as its `SendAndAuth` call (the only one) left it. -/
theorem success_returns_the_decoded_container (S : Sig) (E : Env S) (c : Client)
    (s : String) (w : S.World) (p : Option S.BillingAgreement) :
    ((∀ v ∈ (CreateBillingAgreement E c p (St.init w)).2.calls.filterMap Call.container,
          v = ⟨Kind.create, CreateBillingAgreementResp.zero S⟩)
      ∧ (allSucceeded (CreateBillingAgreement E c p (St.init w)).2.calls = true →
        ∃ req out,
          (CreateBillingAgreement E c p (St.init w)).2.calls.filter Call.isSendAndAuth
            = [Call.sendAndAuth req Kind.create (CreateBillingAgreementResp.zero S) none out]
          ∧ (CreateBillingAgreement E c p (St.init w)).1 = (some out, none)))
    ∧ ((∀ v ∈ (ExecuteBillingAgreement E c s (St.init w)).2.calls.filterMap Call.container,
          v = ⟨Kind.execute, ExecuteBillingAgreementResp.zero S⟩)
      ∧ (allSucceeded (ExecuteBillingAgreement E c s (St.init w)).2.calls = true →
        ∃ req out,
          (ExecuteBillingAgreement E c s (St.init w)).2.calls.filter Call.isSendAndAuth
            = [Call.sendAndAuth req Kind.execute (ExecuteBillingAgreementResp.zero S) none out]
          ∧ (ExecuteBillingAgreement E c s (St.init w)).1 = (some out, none)))
    ∧ ((∀ v ∈ (GetBillingAgreement E c s (St.init w)).2.calls.filterMap Call.container,
          v = ⟨Kind.get, GetBillingAgreementResp.zero S⟩)
      ∧ (allSucceeded (GetBillingAgreement E c s (St.init w)).2.calls = true →
        ∃ req out,
          (GetBillingAgreement E c s (St.init w)).2.calls.filter Call.isSendAndAuth
            = [Call.sendAndAuth req Kind.get (GetBillingAgreementResp.zero S) none out]
          ∧ (GetBillingAgreement E c s (St.init w)).1 = (some out, none))) := by
  simp only [CreateBillingAgreement, ExecuteBillingAgreement, GetBillingAgreement,
    callNewRequest, callSendAndAuth, St.init, allSucceeded]
  refine ⟨?_, ?_, ?_⟩
  all_goals (split <;> [skip; split] <;>
    simp_all [Call.isSendAndAuth, Call.err, Call.container, List.filter])

theorem success_returns_the_decoded_container_witness :
    (allSucceeded (CreateBillingAgreement demoEnv demoClient (some "agreement") (St.init 200)).2.calls = true
        ∧ (CreateBillingAgreement demoEnv demoClient (some "agreement") (St.init 200)).1.2 = none
        ∧ (CreateBillingAgreement demoEnv demoClient (some "agreement") (St.init 200)).1.1.isSome = true)
    ∧ (allSucceeded (ExecuteBillingAgreement demoEnv demoClient "EC-7" (St.init 200)).2.calls = true
        ∧ (ExecuteBillingAgreement demoEnv demoClient "EC-7" (St.init 200)).1.2 = none
        ∧ (ExecuteBillingAgreement demoEnv demoClient "EC-7" (St.init 200)).1.1.isSome = true)
    ∧ (allSucceeded (GetBillingAgreement demoEnv demoClient "I-123" (St.init 200)).2.calls = true
        ∧ (GetBillingAgreement demoEnv demoClient "I-123" (St.init 200)).1.2 = none
        ∧ (GetBillingAgreement demoEnv demoClient "I-123" (St.init 200)).1.1.isSome = true)
    ∧ ((GetBillingAgreement demoEnv demoClient "I-123" (St.init 200)).1.1.map fun v => v.State) = some "Active" := by
  have h := success_returns_the_decoded_container demoSig demoEnv demoClient "I-123" 200
    (some "agreement")
  have hx := success_returns_the_decoded_container demoSig demoEnv demoClient "EC-7" 200
    (some "agreement")
  obtain ⟨_, _, _, h1⟩ := h.1.2 rfl
  obtain ⟨_, _, _, h2⟩ := hx.2.1.2 rfl
  obtain ⟨_, _, _, h3⟩ := h.2.2.2 rfl
  refine ⟨⟨rfl, ?_, ?_⟩, ⟨rfl, ?_, ?_⟩, ⟨rfl, ?_, ?_⟩, by decide⟩
  · rw [h1]
  · rw [h1]; rfl
  · rw [h2]
  · rw [h2]; rfl
  · rw [h3]
  · rw [h3]; rfl

/-- C6: Update, Suspend, Cancel and Reactivate pass the untyped nil as result
container in every `SendAndAuth` call they make, and return the nil error
exactly when a `SendAndAuth` call returned the nil error. -/
theorem no_container_for_empty_responses (S : Sig) (E : Env S) (c : Client) (s : String)
    (w : S.World) (patch : List S.PatchRequest) (descr : Option S.AgreementStateDescriptor) :
    ((∀ k ∈ (UpdateBillingAgreement E c s patch (St.init w)).2.calls.filterMap Call.kind,
          k = Kind.untypedNil)
      ∧ ((UpdateBillingAgreement E c s patch (St.init w)).1 = none ↔
          sendSucceeded (UpdateBillingAgreement E c s patch (St.init w)).2.calls = true))
    ∧ ((∀ k ∈ (SuspendBillingAgreement E c s descr (St.init w)).2.calls.filterMap Call.kind,
          k = Kind.untypedNil)
      ∧ ((SuspendBillingAgreement E c s descr (St.init w)).1 = none ↔
          sendSucceeded (SuspendBillingAgreement E c s descr (St.init w)).2.calls = true))
    ∧ ((∀ k ∈ (CancelBillingAgreement E c s descr (St.init w)).2.calls.filterMap Call.kind,
          k = Kind.untypedNil)
      ∧ ((CancelBillingAgreement E c s descr (St.init w)).1 = none ↔
          sendSucceeded (CancelBillingAgreement E c s descr (St.init w)).2.calls = true))
    ∧ ((∀ k ∈ (ReactivateBillingAgreement E c s descr (St.init w)).2.calls.filterMap Call.kind,
          k = Kind.untypedNil)
      ∧ ((ReactivateBillingAgreement E c s descr (St.init w)).1 = none ↔
          sendSucceeded (ReactivateBillingAgreement E c s descr (St.init w)).2.calls = true)) := by
  simp only [UpdateBillingAgreement, SuspendBillingAgreement, CancelBillingAgreement,
    ReactivateBillingAgreement, callNewRequest, callSendAndAuth, St.init, sendSucceeded]
  refine ⟨?_, ?_, ?_, ?_⟩
  all_goals (split <;> [skip; split] <;>
    simp_all [Call.isSendAndAuth, Call.err, Call.kind])

theorem no_container_for_empty_responses_witness :
    ((UpdateBillingAgreement demoEnv demoClient "I-123" ["op"] (St.init 200)).2.calls.filterMap Call.kind = [Kind.untypedNil]
        ∧ sendSucceeded (UpdateBillingAgreement demoEnv demoClient "I-123" ["op"] (St.init 200)).2.calls = true
        ∧ (UpdateBillingAgreement demoEnv demoClient "I-123" ["op"] (St.init 200)).1 = none)
    ∧ ((SuspendBillingAgreement demoEnv demoClient "I-123" (some "note") (St.init 200)).2.calls.filterMap Call.kind = [Kind.untypedNil]
        ∧ sendSucceeded (SuspendBillingAgreement demoEnv demoClient "I-123" (some "note") (St.init 200)).2.calls = true
        ∧ (SuspendBillingAgreement demoEnv demoClient "I-123" (some "note") (St.init 200)).1 = none)
    ∧ ((CancelBillingAgreement demoEnv demoClient "I-123" (some "note") (St.init 200)).2.calls.filterMap Call.kind = [Kind.untypedNil]
        ∧ sendSucceeded (CancelBillingAgreement demoEnv demoClient "I-123" (some "note") (St.init 200)).2.calls = true
        ∧ (CancelBillingAgreement demoEnv demoClient "I-123" (some "note") (St.init 200)).1 = none)
    ∧ ((ReactivateBillingAgreement demoEnv demoClient "I-123" (some "note") (St.init 200)).2.calls.filterMap Call.kind = [Kind.untypedNil]
        ∧ sendSucceeded (ReactivateBillingAgreement demoEnv demoClient "I-123" (some "note") (St.init 200)).2.calls = true
        ∧ (ReactivateBillingAgreement demoEnv demoClient "I-123" (some "note") (St.init 200)).1 = none) := by
  have h := no_container_for_empty_responses demoSig demoEnv demoClient "I-123" 200
    ["op"] (some "note")
  exact ⟨⟨rfl, rfl, h.1.2.mpr rfl⟩, ⟨rfl, rfl, h.2.1.2.mpr rfl⟩, ⟨rfl, rfl, h.2.2.1.2.mpr rfl⟩,
    ⟨rfl, rfl, h.2.2.2.2.mpr rfl⟩⟩

/-! ### One request per call (C9) -/

/-- C9: every method calls `NewRequest` exactly once, and calls `SendAndAuth`
exactly once when `NewRequest` returned the nil error (whatever `SendAndAuth`
then returns, so nothing is retried) and not at all when `NewRequest` returned
an error. -/
theorem one_request_per_call (S : Sig) (E : Env S) (c : Client) (s : String)
    (w : S.World) (p : Option S.BillingAgreement) (patch : List S.PatchRequest)
    (descr : Option S.AgreementStateDescriptor) :
    OneRequest (CreateBillingAgreement E c p (St.init w)).2.calls
    ∧ OneRequest (ExecuteBillingAgreement E c s (St.init w)).2.calls
    ∧ OneRequest (GetBillingAgreement E c s (St.init w)).2.calls
    ∧ OneRequest (UpdateBillingAgreement E c s patch (St.init w)).2.calls
    ∧ OneRequest (SuspendBillingAgreement E c s descr (St.init w)).2.calls
    ∧ OneRequest (CancelBillingAgreement E c s descr (St.init w)).2.calls
    ∧ OneRequest (ReactivateBillingAgreement E c s descr (St.init w)).2.calls := by
  simp only [CreateBillingAgreement, ExecuteBillingAgreement, GetBillingAgreement,
    UpdateBillingAgreement, SuspendBillingAgreement, CancelBillingAgreement,
    ReactivateBillingAgreement, callNewRequest, callSendAndAuth, St.init]
  refine ⟨?_, ?_, ?_, ?_, ?_, ?_, ?_⟩
  all_goals (split <;> [skip; split] <;>
    simp_all [OneRequest, requestBuilt, Call.isSendAndAuth, Call.isNewRequest, Call.err,
      List.countP_cons])

/-! ### Distinct methods build distinct requests (C10) -/

/-- C10: for a fixed API base and arbitrary identifiers (a `/` inside them
included), if an invocation of one method and an invocation of another hand
`NewRequest` the same (verb, URL) pair, then they are invocations of the same
method with the same identifier: the seven (verb, URL) images are pairwise
disjoint and each method's URL is injective in its identifier. -/
theorem same_request_same_operation_and_identifier (S : Sig) (E F : Env S) (b : String)
    (v w : S.World)
    (i j : Invocation S) (line : String × String)
    (hi : line ∈ i.issued E { APIBase := b } v) (hj : line ∈ j.issued F { APIBase := b } w) :
    i.op = j.op ∧ i.ident = j.ident := by
  cases i <;> cases j <;>
    simp only [Invocation.issued, Invocation.log, CreateBillingAgreement_lines,
      ExecuteBillingAgreement_lines, GetBillingAgreement_lines, UpdateBillingAgreement_lines,
      SuspendBillingAgreement_lines, CancelBillingAgreement_lines,
      ReactivateBillingAgreement_lines, List.mem_singleton] at hi hj <;>
    subst hi <;>
    simp [String.ext_iff, Invocation.op, Invocation.ident] at hj ⊢
  all_goals first
    | exact hj
    | (have hrev := congrArg List.reverse hj
       simp at hrev)

theorem same_request_same_operation_and_identifier_witness :
    ("GET", "https://api.paypal.com/v1/payments/billing-agreements/I-123/suspend")
        ∈ Invocation.issued demoEnv demoClient 200 (Invocation.get "I-123/suspend")
    ∧ ("GET", "https://api.paypal.com/v1/payments/billing-agreements/I-123/suspend")
        ∈ Invocation.issued demoEnv demoClient 500 (Invocation.get "I-123/suspend")
    ∧ (Invocation.get "I-123/suspend" : Invocation demoSig).op
        = (Invocation.get "I-123/suspend" : Invocation demoSig).op
    ∧ (Invocation.get "I-123/suspend" : Invocation demoSig).ident
        = (Invocation.get "I-123/suspend" : Invocation demoSig).ident :=
  ⟨by decide, by decide,
    same_request_same_operation_and_identifier demoSig demoEnv demoEnv
      "https://api.paypal.com/v1" 200 500 (Invocation.get "I-123/suspend")
      (Invocation.get "I-123/suspend")
      ("GET", "https://api.paypal.com/v1/payments/billing-agreements/I-123/suspend")
      (by decide) (by decide)⟩

/-! ### Endpoints of the package comment without a method (C7) -/

/-- C7, evaluated on the code: none of the seven methods, whatever its
arguments, builds `POST b/payments/billing-agreements/a/bill-balance` or
`POST .../a/set-balance`; and `GET .../a/transactions` is built only by
`GetBillingAgreement`, called with the text `a/transactions` as agreement id. -/
theorem balance_endpoints_have_no_operation (S : Sig) (E : Env S) (b a : String)
    (w : S.World) (i : Invocation S) :
    ("POST", b ++ "/payments/billing-agreements/" ++ a ++ "/bill-balance")
        ∉ i.issued E { APIBase := b } w
    ∧ ("POST", b ++ "/payments/billing-agreements/" ++ a ++ "/set-balance")
        ∉ i.issued E { APIBase := b } w
    ∧ (("GET", b ++ "/payments/billing-agreements/" ++ a ++ "/transactions")
        ∈ i.issued E { APIBase := b } w ↔
          i.op = Op.get ∧ i.ident = some (a ++ "/transactions")) := by
  refine ⟨?_, ?_, ?_⟩ <;> cases i <;>
    simp only [Invocation.issued, Invocation.log, CreateBillingAgreement_lines,
      ExecuteBillingAgreement_lines, GetBillingAgreement_lines, UpdateBillingAgreement_lines,
      SuspendBillingAgreement_lines, CancelBillingAgreement_lines,
      ReactivateBillingAgreement_lines, List.mem_singleton] <;>
    simp [String.ext_iff, Invocation.op, Invocation.ident]
  all_goals first
    | exact eq_comm
    | (intro h
       have hrev := congrArg List.reverse h
       simp at hrev)

/-! ### JSON keys of the response types (C8) -/

/-- C8, evaluated on the code: the fields the claim lists are bound to the
listed keys, except `ID` of `ExecuteBillingAgreementResp`, which has no `json`
tag: its key is `ID`, not `id` (decoding still accepts `id`, by case folding). -/
theorem execute_resp_id_has_no_lowercase_key :
    keyOf ExecuteBillingAgreementResp.fields "ID" = some "ID"
    ∧ keyOf ExecuteBillingAgreementResp.fields "ID" ≠ some "id"
    ∧ (ExecuteBillingAgreementResp.fields.find? fun f => f.Name == "ID")
        = some { Name := "ID", JSONTag := none, Anonymous := false }
    ∧ acceptsKey { Name := "ID", JSONTag := none, Anonymous := false } "id" = true
    ∧ keyOf ExecuteBillingAgreementResp.fields "Links" = some "links"
    ∧ keyOf CreateBillingAgreementResp.fields "Links" = some "links"
    ∧ GetBillingAgreementResp.fields.map (fun f => (f.Name, jsonKey f))
        = [("ID", some "id"), ("State", some "state"), ("Description", some "description"),
           ("BillingPlan", some "plan"), ("Links", some "links"),
           ("StartDate", some "start_date"), ("AgreementDetails", some "agreement_details")] := by
  decide

end Paypal
